import Mathlib

/-!
Shallow embedding of the Nomulus AppEngine rollback tool
(release/rollback: common.py, gcs.py, appengine.py, nom_rollback.py,
nom/version_utils.py). Pure functions of the scripts are translated into
executable Lean definitions; the gateway reads (GCS file contents, the
AppEngine serving state and version configurations) are abstracted as
explicit inputs. The step sequencing of the design document, which has no
corresponding code in the repository, is modelled from the spec where noted.
-/

/-- Identifier of a deployed version on AppEngine (common.py, class
VersionKey): a service id paired with a version id. -/
structure VersionKey where
  service_id : String
  version_id : String
  deriving DecidableEq, Repr

/-- Rollback-related static configuration of an AppEngine version (common.py,
class VersionConfig): a VersionKey plus the optional manual-scaling instance
count. -/
structure VersionConfig where
  service_id : String
  version_id : String
  manual_scaling_instances : Option Int
  deriving DecidableEq, Repr

/-- Identity of a configuration: the VersionKey part of a VersionConfig. -/
def VersionConfig.key (c : VersionConfig) : VersionKey :=
  ⟨c.service_id, c.version_id⟩

/-- VersionConfig.is_manual_scaling (common.py lines 66-67). -/
def VersionConfig.is_manual_scaling (c : VersionConfig) : Bool :=
  c.manual_scaling_instances.isSome

/-- Python equality between members of the VersionKey class family
(common.py, VersionKey.__eq__, lines 46-49): only the two identity fields are
compared, so VersionConfig values (which inherit this method) compare by
identity as well. This is the equality Python set operations use for these
values. -/
def sameVersion (a b : VersionConfig) : Bool :=
  a.service_id == b.service_id && a.version_id == b.version_id

/-- Value of the Python VersionKey class family: either a bare VersionKey or a
VersionConfig instance (VersionConfig subclasses VersionKey with eq=False, so
it inherits both __eq__ and the generated __hash__). -/
inductive PyVersionObj where
  | key (k : VersionKey)
  | config (c : VersionConfig)
  deriving DecidableEq, Repr

/-- Python attribute self.service_id on a VersionKey-family value. -/
def PyVersionObj.service_id : PyVersionObj → String
  | .key k => k.service_id
  | .config c => c.service_id

/-- Python attribute self.version_id on a VersionKey-family value. -/
def PyVersionObj.version_id : PyVersionObj → String
  | .key k => k.version_id
  | .config c => c.version_id

/-- VersionKey.__eq__ (common.py lines 46-49) between two values of the
VersionKey class family. Both operands are isinstance of VersionKey, so the
isinstance guard is true and equality is by the two identity fields only. -/
def versionKeyEq (a b : PyVersionObj) : Bool :=
  a.service_id == b.service_id && a.version_id == b.version_id

/-- Dataclass-generated __hash__ of VersionKey: Python hashes the tuple of the
fields declared on VersionKey, namely (service_id, version_id); VersionConfig
inherits it unchanged. The hash is modelled by that tuple itself, so equal
tuples mean equal Python hash values. -/
def versionKeyHashKey (a : PyVersionObj) : String × String :=
  (a.service_id, a.version_id)

/-- Exceptions the rollback pipeline can raise: common.ServiceStateError as
raised by _generate_plan (carrying the service ids it reports as not
rollbackable), the ValueError raised by unpacking a record line with the wrong
field count, and the AssertionError of GcsClient.get_schema_tag. -/
inductive RollbackError where
  | serviceStateError (cannot_rollback : List String)
  | valueError (line : String)
  | assertionError
  deriving DecidableEq, Repr

/-- Set insertion: add an element unless an equal one is already present. -/
def insertNew [BEq α] (l : List α) (a : α) : List α :=
  if l.contains a then l else l ++ [a]

/-- Python frozenset construction from an iterable: duplicates collapse,
keeping the first occurrence of each element. -/
def pySet [BEq α] (l : List α) : List α :=
  l.foldl insertNew []

/-- Python str.split on a single comma (no maxsplit): cut the character stream
at every comma, keeping empty fields. -/
def splitCommaAux : List Char → List Char → List String
  | [], acc => [String.mk acc.reverse]
  | c :: rest, acc =>
    if c = ',' then String.mk acc.reverse :: splitCommaAux rest []
    else splitCommaAux rest (c :: acc)

/-- Python line.split(',') (gcs.py line 75, version_utils.py line 92). -/
def split_fields (line : String) : List String :=
  splitCommaAux line.data []

/-- Tuple unpacking of one record line into (tag, service_id, version_id):
succeeds exactly when the line has three comma-separated fields, otherwise the
unpacking raises ValueError. -/
def parseRecordLine (line : String) : Option (String × String × String) :=
  match split_fields line with
  | [tag, service_id, version_id] => some (tag, service_id, version_id)
  | _ => none

/-- Loop of GcsClient.get_versions_by_release (gcs.py lines 73-78): unpack
each line in order, raising at the first malformed one, and keep the
VersionKey of every line whose tag matches. -/
def parseVersionLines (nom_tag : String) :
    List String → Except RollbackError (List VersionKey)
  | [] => .ok []
  | line :: rest =>
    match parseRecordLine line with
    | some (tag, service_id, version_id) =>
        (parseVersionLines nom_tag rest).map (fun versions =>
          if nom_tag == tag then ⟨service_id, version_id⟩ :: versions
          else versions)
    | none => .error (.valueError line)

/-- GcsClient.get_versions_by_release (gcs.py lines 48-79), applied to the
lines of the version mapping file: parse every line and return the matching
versions as a frozenset. -/
def get_versions_by_release (lines : List String) (nom_tag : String) :
    Except RollbackError (List VersionKey) :=
  (parseVersionLines nom_tag lines).map pySet

/-- GcsClient.get_schema_tag (gcs.py lines 81-93), applied to the lines of the
schema tag file: asserts that the body is exactly one line and returns that
line. -/
def get_schema_tag (file_content : List String) : Except RollbackError String :=
  match file_content with
  | [line] => .ok line
  | _ => .error .assertionError

/-- ServiceVersions (nom/version_utils.py lines 21-48): a service id, the set
of AppEngine versions in that service, and optionally the release tag. -/
structure ServiceVersions where
  service : String
  appengine_versions : List String
  nom_tag : Option String
  deriving DecidableEq, Repr

/-- Python version_map.setdefault(service, set()).add(appengine_version)
(version_utils.py line 94) on an insertion-ordered dict whose values are
sets. -/
def mapAdd (m : List (String × List String)) (service version : String) :
    List (String × List String) :=
  match m with
  | [] => [(service, [version])]
  | (s, vs) :: rest =>
    if s == service then (s, insertNew vs version) :: rest
    else (s, vs) :: mapAdd rest service version

/-- Loop of _parse_version_map (version_utils.py lines 90-94): unpack each
line, raising at the first malformed one, and group the matching versions by
service. -/
def parseVersionMapLines (nom_tag : String) :
    List String → List (String × List String) →
    Except RollbackError (List (String × List String))
  | [], acc => .ok acc
  | line :: rest, acc =>
    match parseRecordLine line with
    | some (tag, service, appengine_version) =>
        parseVersionMapLines nom_tag rest
          (if nom_tag == tag then mapAdd acc service appengine_version else acc)
    | none => .error (.valueError line)

/-- _parse_version_map (nom/version_utils.py lines 86-99): parse the mapping
file content and build one ServiceVersions per service that the tag was
deployed to. -/
def _parse_version_map (lines : List String) (nom_tag : String) :
    Except RollbackError (List ServiceVersions) :=
  (parseVersionMapLines nom_tag lines []).map (fun m =>
    m.map (fun p => ⟨p.1, p.2, some nom_tag⟩))

/-- AppEngineAdmin.SERVICES (appengine.py line 44): the frozenset of AppEngine
services under management. -/
def SERVICES : List String := ["backend", "default", "pubapi", "tools"]

/-- Dict-key insertion used by setdefault: add a service id key unless
present. -/
def insertKey (ks : List String) (s : String) : List String :=
  if ks.contains s then ks else ks ++ [s]

/-- Keys of the per-service dicts built by _generate_plan (nom_rollback.py
lines 96-102): the distinct service ids of the given configurations, in first
appearance order. -/
def serviceKeys (versions : List VersionConfig) : List String :=
  versions.foldl (fun ks v => insertKey ks v.service_id) []

/-- Python equality between a dict key view and a frozenset (nom_rollback.py
line 104): the two collections hold the same elements. -/
def keysEqSet (a b : List String) : Bool :=
  a.all (fun s => b.contains s) && b.all (fun s => a.contains s)

/-- AppEngineAdmin.SERVICES.difference(targets_by_service.keys())
(nom_rollback.py lines 105-106): the managed services with no target
version. -/
def missingServices (ks : List String) : List String :=
  SERVICES.filter (fun s => !ks.contains s)

/-- Python versions.intersection(serving_versions) tested for truthiness
(nom_rollback.py line 114): set membership uses VersionKey.__eq__, so the
test asks whether some target and some serving version share their identity
fields. -/
def intersectsByKey (a b : List VersionConfig) : Bool :=
  a.any (fun x => b.any (fun y => sameVersion x y))

/-- _RollbackPlan (nom_rollback.py lines 58-77): the data needed for rolling
back one service. Its __post_init__ asserts that every serving version belongs
to the target version's service. -/
structure _RollbackPlan where
  target_version : VersionConfig
  serving_versions : List VersionConfig
  deriving DecidableEq, Repr

/-- Body of the per-service loop of _generate_plan (nom_rollback.py lines
111-120): skip the service when some target version is already serving,
otherwise emit a plan pairing the chosen target version (the first of the
service's target versions, modelling next(iter(versions))) with the serving
set of the service. The empty-target arm is unreachable because the service
ids iterated over are the keys of the target grouping. -/
def planForService (target_versions serving_versions : List VersionConfig)
    (service_id : String) : Option _RollbackPlan :=
  if intersectsByKey (target_versions.filter (fun v => v.service_id == service_id))
      (serving_versions.filter (fun v => v.service_id == service_id)) then none
  else
    match target_versions.filter (fun v => v.service_id == service_id) with
    | [] => none
    | chosen_version :: _ =>
        some ⟨chosen_version,
          serving_versions.filter (fun v => v.service_id == service_id)⟩

/-- _generate_plan (nom_rollback.py lines 90-122): raise ServiceStateError
when the target service ids are not exactly the managed service set, else emit
the per-service plans in key order. -/
def _generate_plan (target_versions serving_versions : List VersionConfig) :
    Except RollbackError (List _RollbackPlan) :=
  let ks := serviceKeys target_versions
  if keysEqSet ks SERVICES then
    .ok (ks.filterMap (planForService target_versions serving_versions))
  else
    .error (.serviceStateError (missingServices ks))

/-- _ensure_versions_available (nom_rollback.py lines 80-87): the double set
intersection keeps exactly the configurations whose identity was requested;
requested identities with no configuration are silently dropped, no error is
raised here. -/
def _ensure_versions_available (requested_versions : List VersionKey)
    (all_configs : List VersionConfig) : List VersionConfig :=
  all_configs.filter (fun c => requested_versions.contains c.key)

/-- AppEngineAdmin.get_version_configs (appengine.py lines 98-135), with the
platform state abstracted as the list of version configurations it can report:
the result holds the configurations of exactly the requested identities that
exist on the platform, silently omitting the rest. -/
def get_version_configs (platform : List VersionConfig)
    (versions : List VersionKey) : List VersionConfig :=
  platform.filter (fun c => versions.contains c.key)

/-- rollback (nom_rollback.py lines 125-152): resolve the target versions of
the release from the deployment records, query the configurations of the union
of target and serving versions, keep the available ones, and generate the
plan. The gateway reads are abstracted as inputs: the record file lines, the
serving version identities, and the platform configurations. -/
def rollback_run (catalog_lines : List String) (target_release : String)
    (serving_versions : List VersionKey) (platform : List VersionConfig) :
    Except RollbackError (List _RollbackPlan) :=
  match get_versions_by_release catalog_lines target_release with
  | .error e => .error e
  | .ok target_versions =>
    let all_version_configs :=
      get_version_configs platform (pySet (target_versions ++ serving_versions))
    let target_configs :=
      _ensure_versions_available target_versions all_version_configs
    let serving_configs :=
      _ensure_versions_available serving_versions all_version_configs
    _generate_plan target_configs serving_configs

/-- Exit protocol of the script (nom_rollback.py lines 155-173): main() runs
rollback and then returns 1 (line 165), and the top-level handler around
sys.exit(main()) prints str(ex) and exits 1 on any exception, so the process
exit code is 1 on the success path and 1 on the error path. -/
def script_exit_code (run : Except RollbackError (List _RollbackPlan)) : Nat :=
  match run with
  | .ok _ => 1
  | .error _ => 1

/-- Message printed by the top-level handler before exiting (nom_rollback.py
line 172 prints str(ex)): present exactly on the error path. -/
def script_error_printed (run : Except RollbackError (List _RollbackPlan)) :
    Option RollbackError :=
  match run with
  | .ok _ => none
  | .error e => some e

/-- Rollback step kinds. rollback_steps.py declares CheckSchemaCompatibility
and (unfinished) ActivateVersion; the deactivation step exists only in the
design document. -/
inductive Step where
  | checkSchemaCompatibility
  | activateVersion (version : VersionConfig)
  | deactivateVersion (version : VersionConfig)
  deriving DecidableEq, Repr

/-- Modelled from the spec: the repository has no code that turns a plan into
an executed step sequence (rollback only prints the generated plan, and
rollback_steps.py is an unfinished draft with no deactivation step and no
runner). Per design section 4.3, one service's steps are the activation of the
target version followed by the deactivation of each previously serving
version. -/
def planStepsOf (p : _RollbackPlan) : List Step :=
  Step.activateVersion p.target_version ::
    p.serving_versions.map Step.deactivateVersion

/-- Concatenation of the per-service step lists, in plan order. -/
def plansSteps : List _RollbackPlan → List Step
  | [] => []
  | p :: rest => planStepsOf p ++ plansSteps rest

/-- Modelled from the spec: the full executed sequence runs the compatibility
gate once, before all per-service steps (design sections 4.3 and 5). -/
def planSteps (plans : List _RollbackPlan) : List Step :=
  Step.checkSchemaCompatibility :: plansSteps plans

/-- Record lines of a converged deployment: release t maps each managed
service to v1. -/
def c1Catalog : List String :=
  ["t,backend,v1", "t,default,v1", "t,pubapi,v1", "t,tools,v1"]

/-- Serving state of the converged deployment: v1 serves everywhere. -/
def c1Serving : List VersionKey :=
  [⟨"backend", "v1"⟩, ⟨"default", "v1"⟩, ⟨"pubapi", "v1"⟩, ⟨"tools", "v1"⟩]

/-- Platform configurations of the converged deployment. -/
def c1Platform : List VersionConfig :=
  [⟨"backend", "v1", none⟩, ⟨"default", "v1", none⟩,
   ⟨"pubapi", "v1", none⟩, ⟨"tools", "v1", none⟩]

/-- Target configurations covering every managed service plus one service
outside the managed set. -/
def c2SuperTargets : List VersionConfig :=
  [⟨"backend", "v2", none⟩, ⟨"default", "v2", none⟩, ⟨"pubapi", "v2", none⟩,
   ⟨"tools", "v2", none⟩, ⟨"extra", "v2", none⟩]

/-- Target configurations covering only two managed services. -/
def c2PartialTargets : List VersionConfig :=
  [⟨"default", "v2", none⟩, ⟨"tools", "v2", none⟩]

/-- Converged target configurations: v1 for every managed service. -/
def c3Targets : List VersionConfig :=
  [⟨"backend", "v1", none⟩, ⟨"default", "v1", none⟩,
   ⟨"pubapi", "v1", none⟩, ⟨"tools", "v1", none⟩]

/-- Converged serving configurations: the same identities, one of them with a
different manual-scaling count than the target snapshot. -/
def c3Serving : List VersionConfig :=
  [⟨"backend", "v1", some 10⟩, ⟨"default", "v1", none⟩,
   ⟨"pubapi", "v1", none⟩, ⟨"tools", "v1", none⟩]

/-- Target configurations for a full rollback: v2 everywhere. -/
def exTargets : List VersionConfig :=
  [⟨"backend", "v2", none⟩, ⟨"default", "v2", none⟩,
   ⟨"pubapi", "v2", none⟩, ⟨"tools", "v2", none⟩]

/-- Serving configurations for the full rollback example: v1 serves
everywhere. -/
def exServing : List VersionConfig :=
  [⟨"backend", "v1", none⟩, ⟨"default", "v1", none⟩,
   ⟨"pubapi", "v1", none⟩, ⟨"tools", "v1", none⟩]

/-- Plans _generate_plan emits for exTargets and exServing. -/
def exPlans : List _RollbackPlan :=
  [⟨⟨"backend", "v2", none⟩, [⟨"backend", "v1", none⟩]⟩,
   ⟨⟨"default", "v2", none⟩, [⟨"default", "v1", none⟩]⟩,
   ⟨⟨"pubapi", "v2", none⟩, [⟨"pubapi", "v1", none⟩]⟩,
   ⟨⟨"tools", "v2", none⟩, [⟨"tools", "v1", none⟩]⟩]

/-- Record lines for the missing-configuration scenario: release t maps each
managed service to v2. -/
def c7Catalog : List String :=
  ["t,backend,v2", "t,default,v2", "t,pubapi,v2", "t,tools,v2"]

/-- Target identities for the missing-configuration scenario: v2 in each
managed service. -/
def c7TargetKeys : List VersionKey :=
  [⟨"backend", "v2"⟩, ⟨"default", "v2"⟩, ⟨"pubapi", "v2"⟩, ⟨"tools", "v2"⟩]

/-- Serving identities for the missing-configuration scenario: v1 everywhere
plus a second serving version default/v9. -/
def c7Serving : List VersionKey :=
  [⟨"backend", "v1"⟩, ⟨"default", "v1"⟩, ⟨"pubapi", "v1"⟩, ⟨"tools", "v1"⟩,
   ⟨"default", "v9"⟩]

/-- Platform configurations for the missing-configuration scenario: every
target and serving version except default/v9 has a configuration; default/v9
was deleted from the platform. -/
def c7Platform : List VersionConfig :=
  [⟨"backend", "v2", none⟩, ⟨"default", "v2", none⟩,
   ⟨"pubapi", "v2", none⟩, ⟨"tools", "v2", none⟩,
   ⟨"backend", "v1", none⟩, ⟨"default", "v1", none⟩,
   ⟨"pubapi", "v1", none⟩, ⟨"tools", "v1", none⟩]

/-- Plans rollback_run produces in the missing-configuration scenario: the
plan for service default lists only default/v1, not the unresolvable
default/v9. -/
def c7Plans : List _RollbackPlan :=
  [⟨⟨"backend", "v2", none⟩, [⟨"backend", "v1", none⟩]⟩,
   ⟨⟨"default", "v2", none⟩, [⟨"default", "v1", none⟩]⟩,
   ⟨⟨"pubapi", "v2", none⟩, [⟨"pubapi", "v1", none⟩]⟩,
   ⟨⟨"tools", "v2", none⟩, [⟨"tools", "v1", none⟩]⟩]

/-- Python equality on VersionConfig holds exactly when the two identity
fields agree. -/
theorem sameVersion_iff {a b : VersionConfig} :
    sameVersion a b = true ↔
      a.service_id = b.service_id ∧ a.version_id = b.version_id := by
  simp [sameVersion]

/-- Membership in an insertKey result is membership in the old keys or being
the inserted key. -/
theorem mem_insertKey {ks : List String} {s a : String} :
    a ∈ insertKey ks s ↔ a ∈ ks ∨ a = s := by
  unfold insertKey
  split
  · rename_i hc
    constructor
    · exact fun h => Or.inl h
    · rintro (h | rfl)
      · exact h
      · exact List.elem_iff.mp hc
  · simp [List.mem_append]

/-- Elements of the folded key list come from the accumulator or from a
grouped configuration. -/
theorem mem_foldl_insertKey :
    ∀ (vs : List VersionConfig) (acc : List String) (sid : String),
      sid ∈ vs.foldl (fun ks v => insertKey ks v.service_id) acc →
      sid ∈ acc ∨ ∃ v ∈ vs, v.service_id = sid := by
  intro vs
  induction vs with
  | nil => exact fun acc sid h => Or.inl h
  | cons v rest ih =>
    intro acc sid h
    rcases ih (insertKey acc v.service_id) sid h with hacc | ⟨w, hw, hwid⟩
    · rcases mem_insertKey.mp hacc with h' | h'
      · exact Or.inl h'
      · exact Or.inr ⟨v, List.mem_cons_self v rest, h'.symm⟩
    · exact Or.inr ⟨w, List.mem_cons_of_mem v hw, hwid⟩

/-- Every key of the target grouping is the service id of some target
configuration. -/
theorem mem_serviceKeys_exists {vs : List VersionConfig} {sid : String}
    (h : sid ∈ serviceKeys vs) : ∃ v ∈ vs, v.service_id = sid := by
  rcases mem_foldl_insertKey vs [] sid h with h' | h'
  · cases h'
  · exact h'

/-- Inserting a key preserves the absence of duplicate keys. -/
theorem insertKey_nodup {ks : List String} {s : String} (h : ks.Nodup) :
    (insertKey ks s).Nodup := by
  unfold insertKey
  split
  · exact h
  · rename_i hc
    refine List.Nodup.append h (List.nodup_singleton s) ?_
    intro a ha hb
    rw [List.mem_singleton] at hb
    subst hb
    exact hc (List.elem_iff.mpr ha)

/-- Folding insertKey over configurations preserves the absence of duplicate
keys. -/
theorem foldl_insertKey_nodup :
    ∀ (vs : List VersionConfig) (acc : List String), acc.Nodup →
      (vs.foldl (fun ks v => insertKey ks v.service_id) acc).Nodup := by
  intro vs
  induction vs with
  | nil => exact fun acc h => h
  | cons v rest ih => exact fun acc h => ih _ (insertKey_nodup h)

/-- Dict keys are unique: the grouped service ids hold no duplicates. -/
theorem serviceKeys_nodup (vs : List VersionConfig) : (serviceKeys vs).Nodup :=
  foldl_insertKey_nodup vs [] List.nodup_nil

/-- When the target service ids equal the managed set, _generate_plan returns
the per-service plans. -/
theorem generate_plan_guard_true (t s : List VersionConfig)
    (h : keysEqSet (serviceKeys t) SERVICES = true) :
    _generate_plan t s =
      .ok ((serviceKeys t).filterMap (planForService t s)) := by
  simp [_generate_plan, h]

/-- When the target service ids differ from the managed set, _generate_plan
raises ServiceStateError naming the uncovered managed services. -/
theorem generate_plan_guard_false (t s : List VersionConfig)
    (h : keysEqSet (serviceKeys t) SERVICES = false) :
    _generate_plan t s =
      .error (.serviceStateError (missingServices (serviceKeys t))) := by
  simp [_generate_plan, h]

/-- A successful _generate_plan run means the guard passed and the result is
the filterMap over the target keys. -/
theorem generate_plan_ok_plans {t s : List VersionConfig}
    {plans : List _RollbackPlan} (h : _generate_plan t s = .ok plans) :
    keysEqSet (serviceKeys t) SERVICES = true ∧
    plans = (serviceKeys t).filterMap (planForService t s) := by
  cases hg : keysEqSet (serviceKeys t) SERVICES
  · rw [generate_plan_guard_false t s hg] at h
    cases h
  · rw [generate_plan_guard_true t s hg] at h
    injection h with h
    exact ⟨rfl, h.symm⟩

/-- The intersection test is empty exactly when no target version of the
service shares its identity with a serving version of the service. -/
theorem intersectsByKey_eq_false_iff {a b : List VersionConfig} :
    intersectsByKey a b = false ↔
      ∀ x ∈ a, ∀ y ∈ b, sameVersion x y = false := by
  constructor
  · intro h x hx y hy
    cases hxy : sameVersion x y
    · rfl
    · exfalso
      have ht : intersectsByKey a b = true :=
        List.any_eq_true.mpr ⟨x, hx, List.any_eq_true.mpr ⟨y, hy, hxy⟩⟩
      rw [h] at ht
      cases ht
  · intro h
    cases hab : intersectsByKey a b
    · rfl
    · exfalso
      obtain ⟨x, hx, hbx⟩ := List.any_eq_true.mp hab
      obtain ⟨y, hy, hxy⟩ := List.any_eq_true.mp hbx
      rw [h x hx y hy] at hxy
      cases hxy

/-- Structure of an emitted per-service plan: the target version is the first
target configuration of the service, the serving versions are the service's
serving group, and the intersection test was empty. -/
theorem planForService_eq_some {t s : List VersionConfig} {sid : String}
    {p : _RollbackPlan} (h : planForService t s sid = some p) :
    p.target_version ∈ t.filter (fun v => v.service_id == sid) ∧
    p.serving_versions = s.filter (fun v => v.service_id == sid) ∧
    intersectsByKey (t.filter (fun v => v.service_id == sid))
      (s.filter (fun v => v.service_id == sid)) = false := by
  unfold planForService at h
  split at h
  · cases h
  · rename_i hint
    split at h
    · cases h
    · rename_i chosen rest heq
      cases h
      refine ⟨?_, rfl, ?_⟩
      · rw [heq]
        exact List.mem_cons_self _ _
      · cases hb : intersectsByKey (t.filter (fun v => v.service_id == sid))
            (s.filter (fun v => v.service_id == sid))
        · rfl
        · exact absurd hb hint

/-- The target version of an emitted plan belongs to the service the plan was
generated for. -/
theorem planForService_some_sid {t s : List VersionConfig} {sid : String}
    {p : _RollbackPlan} (h : planForService t s sid = some p) :
    p.target_version.service_id = sid := by
  obtain ⟨htv, -, -⟩ := planForService_eq_some h
  have h2 := (List.mem_filter.mp htv).2
  simpa using h2

/-- Mapping a left inverse over a filterMap yields a sublist of the original
list. -/
theorem filterMap_map_sublist {α : Type} {β : Type} (f : α → Option β)
    (g : β → α) (hfg : ∀ a b, f a = some b → g b = a) :
    ∀ l : List α, ((l.filterMap f).map g).Sublist l := by
  intro l
  induction l with
  | nil => simp
  | cons a rest ih =>
    cases hfa : f a with
    | none =>
      simp only [List.filterMap_cons, hfa]
      exact ih.cons a
    | some b =>
      simp only [List.filterMap_cons, hfa, List.map_cons]
      rw [hfg a b hfa]
      exact ih.cons₂ a

/-- Plan locality as guaranteed by _generate_plan (and asserted by
_RollbackPlan.__post_init__): every serving version in an emitted plan belongs
to the target version's service. -/
theorem generate_plan_locality {t s : List VersionConfig}
    {plans : List _RollbackPlan} (h : _generate_plan t s = .ok plans) :
    ∀ p ∈ plans, ∀ c ∈ p.serving_versions,
      c.service_id = p.target_version.service_id := by
  obtain ⟨-, hpl⟩ := generate_plan_ok_plans h
  subst hpl
  intro p hp c hc
  obtain ⟨sid, -, hps⟩ := List.mem_filterMap.mp hp
  obtain ⟨htv, hsv, -⟩ := planForService_eq_some hps
  have htsid : p.target_version.service_id = sid := by
    have h2 := (List.mem_filter.mp htv).2
    simpa using h2
  rw [hsv] at hc
  have h3 := (List.mem_filter.mp hc).2
  rw [htsid]
  simpa using h3

/-- C1: the claim says the process exits 0 when the rollback fully converges
and 1 on any error with the message printed. The code disagrees on the success
path: main() returns 1 unconditionally (nom_rollback.py line 165), so a run
that converges with no action needed still exits 1. This theorem evaluates
the embedded pipeline on a fully converged deployment: rollback succeeds with
an empty plan, yet the exit code is 1; the error path does exit 1 with the
exception carried to the printing handler. -/
theorem c1_exit_code_on_success :
    rollback_run c1Catalog "t" c1Serving c1Platform = .ok [] ∧
    script_exit_code (rollback_run c1Catalog "t" c1Serving c1Platform) = 1 ∧
    (∀ e : RollbackError, script_exit_code (.error e) = 1 ∧
      script_error_printed (.error e) = some e) :=
  ⟨rfl, rfl, fun _ => ⟨rfl, rfl⟩⟩

/-- C2 counterexample: target configurations that cover every managed service
id (plus one extra service) still make _generate_plan fail, because the code
compares the grouped keys with the managed set by equality, not coverage; the
raised error then names no missing service at all. This refutes the claim
that the check passes whenever every required service is covered. -/
theorem c2_counterexample :
    SERVICES.all (fun sid => (serviceKeys c2SuperTargets).contains sid) = true ∧
    _generate_plan c2SuperTargets [] = .error (.serviceStateError []) :=
  ⟨rfl, rfl⟩

/-- C2 amended: _generate_plan succeeds exactly when the target service ids
are, as a set, equal to the managed service set (so a strict superset also
fails); on failure it raises the completeness error naming exactly the
managed services missing from the targets, an empty list when only extra
services are present. -/
theorem c2_completeness_check (target_versions serving_versions : List VersionConfig) :
    ((∃ plans, _generate_plan target_versions serving_versions = .ok plans) ↔
      keysEqSet (serviceKeys target_versions) SERVICES = true) ∧
    (keysEqSet (serviceKeys target_versions) SERVICES = false →
      _generate_plan target_versions serving_versions =
        .error (.serviceStateError
          (missingServices (serviceKeys target_versions)))) := by
  refine ⟨⟨?_, ?_⟩, generate_plan_guard_false _ _⟩
  · rintro ⟨plans, h⟩
    exact (generate_plan_ok_plans h).1
  · intro hg
    exact ⟨_, generate_plan_guard_true _ _ hg⟩

/-- C2 witness: on targets covering only the services default and tools, the
error names exactly the missing managed services backend and pubapi. -/
theorem c2_completeness_check_demo :
    _generate_plan c2PartialTargets [] =
      .error (.serviceStateError ["backend", "pubapi"]) :=
  (c2_completeness_check c2PartialTargets []).2 (by decide)

/-- C3: idempotence of plan generation. For a converged input, meaning the
targets cover exactly the managed services and every target version is, by
identity, already among the serving versions, _generate_plan emits no plan. -/
theorem c3_idempotence (target_versions serving_versions : List VersionConfig)
    (hcover : keysEqSet (serviceKeys target_versions) SERVICES = true)
    (hconverged : ∀ v ∈ target_versions,
      serving_versions.any (fun w => sameVersion v w) = true) :
    _generate_plan target_versions serving_versions = .ok [] := by
  rw [generate_plan_guard_true _ _ hcover]
  refine congrArg Except.ok (List.filterMap_eq_nil_iff.mpr ?_)
  intro sid hsid
  obtain ⟨v, hv, hvid⟩ := mem_serviceKeys_exists hsid
  obtain ⟨w, hw, hvw⟩ := List.any_eq_true.mp (hconverged v hv)
  have hsame := sameVersion_iff.mp hvw
  have hwid : w.service_id = sid := by
    rw [← hsame.1]
    exact hvid
  have hvf : v ∈ target_versions.filter (fun x => x.service_id == sid) :=
    List.mem_filter.mpr ⟨hv, by simp [hvid]⟩
  have hwf : w ∈ serving_versions.filter (fun x => x.service_id == sid) :=
    List.mem_filter.mpr ⟨hw, by simp [hwid]⟩
  have hint : intersectsByKey
      (target_versions.filter (fun x => x.service_id == sid))
      (serving_versions.filter (fun x => x.service_id == sid)) = true :=
    List.any_eq_true.mpr ⟨v, hvf, List.any_eq_true.mpr ⟨w, hwf, hvw⟩⟩
  unfold planForService
  simp [hint]

/-- C3 witness: a converged deployment on v1 (one serving version with a
manual-scaling count differing from the target snapshot) produces the empty
plan sequence. -/
theorem c3_idempotence_demo :
    _generate_plan c3Targets c3Serving = .ok [] :=
  c3_idempotence c3Targets c3Serving (by decide) (by decide)

/-- C5: invariants of every emitted plan sequence. Each plan's serving
versions belong to the target version's service; the target version is never
a member (by Python version identity) of the plan's serving versions; and the
sequence holds at most one plan per service. -/
theorem c5_plan_invariants (target_versions serving_versions : List VersionConfig)
    (plans : List _RollbackPlan)
    (h : _generate_plan target_versions serving_versions = .ok plans) :
    (∀ p ∈ plans,
        (∀ c ∈ p.serving_versions,
          c.service_id = p.target_version.service_id) ∧
        ∀ c ∈ p.serving_versions, sameVersion p.target_version c = false) ∧
    (plans.map (fun p => p.target_version.service_id)).Nodup := by
  obtain ⟨-, hpl⟩ := generate_plan_ok_plans h
  subst hpl
  constructor
  · intro p hp
    refine ⟨generate_plan_locality h p hp, ?_⟩
    obtain ⟨sid, -, hps⟩ := List.mem_filterMap.mp hp
    obtain ⟨htv, hsv, hdisj⟩ := planForService_eq_some hps
    intro c hc
    rw [hsv] at hc
    exact intersectsByKey_eq_false_iff.mp hdisj _ htv _ hc
  · have hsub := filterMap_map_sublist
      (planForService target_versions serving_versions)
      (fun p => p.target_version.service_id)
      (fun sid p hp => planForService_some_sid hp)
      (serviceKeys target_versions)
    exact (serviceKeys_nodup target_versions).sublist hsub

/-- C5 witness: the invariants on the concrete four-service rollback from v1
to v2. -/
theorem c5_plan_invariants_demo :
    (∀ p ∈ exPlans,
        (∀ c ∈ p.serving_versions,
          c.service_id = p.target_version.service_id) ∧
        ∀ c ∈ p.serving_versions, sameVersion p.target_version c = false) ∧
    (exPlans.map (fun p => p.target_version.service_id)).Nodup :=
  c5_plan_invariants exTargets exServing exPlans rfl

/-- C6: Python equality and hash of the VersionKey class family depend only on
the pair (service_id, version_id): a VersionConfig carrying a manual-scaling
count equals, and hashes like, the bare VersionKey with the same pair, and the
membership test used by the already-serving check is unchanged by the
manual-scaling field. -/
theorem c6_version_identity (s v : String) (n : Int) (l : List VersionConfig) :
    versionKeyEq (.config ⟨s, v, some n⟩) (.key ⟨s, v⟩) = true ∧
    versionKeyHashKey (.config ⟨s, v, some n⟩) = versionKeyHashKey (.key ⟨s, v⟩) ∧
    l.any (fun y => sameVersion ⟨s, v, some n⟩ y) =
      l.any (fun y => sameVersion ⟨s, v, none⟩ y) := by
  refine ⟨?_, rfl, rfl⟩
  simp [versionKeyEq, PyVersionObj.service_id, PyVersionObj.version_id]

/-- Within the concatenated per-service step lists, any deactivation is
preceded by an activation for the same service, provided every plan satisfies
the locality invariant. -/
theorem plansSteps_deactivate_after_activate :
    ∀ (plans : List _RollbackPlan),
      (∀ p ∈ plans, ∀ c ∈ p.serving_versions,
        c.service_id = p.target_version.service_id) →
      ∀ (j : Nat) (w : VersionConfig),
        (plansSteps plans)[j]? = some (Step.deactivateVersion w) →
        ∃ i v, i < j ∧
          (plansSteps plans)[i]? = some (Step.activateVersion v) ∧
          v.service_id = w.service_id := by
  intro plans
  induction plans with
  | nil =>
    intro _ j w h
    simp [plansSteps] at h
  | cons p rest ih =>
    intro hval j w h
    simp only [plansSteps] at h ⊢
    by_cases hj : j < (planStepsOf p).length
    · rw [List.getElem?_append_left hj] at h
      cases j with
      | zero => simp [planStepsOf] at h
      | succ k =>
        simp only [planStepsOf, List.getElem?_cons_succ,
          List.getElem?_map] at h
        cases hk : p.serving_versions[k]? with
        | none =>
          rw [hk] at h
          simp at h
        | some c =>
          rw [hk] at h
          simp only [Option.map_some'] at h
          have hcw : c = w := by
            injection h with h'
            injection h'
          have hcmem : c ∈ p.serving_versions := List.getElem?_mem hk
          have hcsid : w.service_id = p.target_version.service_id := by
            rw [← hcw]
            exact hval p (List.mem_cons_self p rest) c hcmem
          refine ⟨0, p.target_version, Nat.succ_pos k, ?_, hcsid.symm⟩
          rw [List.getElem?_append_left (by simp [planStepsOf])]
          simp [planStepsOf]
    · push_neg at hj
      rw [List.getElem?_append_right hj] at h
      obtain ⟨i, v, hik, hi, hsid⟩ :=
        ih (fun q hq => hval q (List.mem_cons_of_mem p hq)) _ w h
      refine ⟨(planStepsOf p).length + i, v, ?_, ?_, hsid⟩
      · omega
      · rw [List.getElem?_append_right (Nat.le_add_right _ _)]
        simpa using hi

/-- C4: ordering of the executed step sequence built from any generated plan
list (the sequencing itself is modelled from the spec, see planSteps): the
compatibility gate occupies position 0 and thus precedes every activation and
deactivation, and every deactivation of a previously serving version is
preceded by the activation of the target version of the same service. -/
theorem c4_step_ordering (target_versions serving_versions : List VersionConfig)
    (plans : List _RollbackPlan)
    (h : _generate_plan target_versions serving_versions = .ok plans) :
    (planSteps plans)[0]? = some Step.checkSchemaCompatibility ∧
    (∀ (i : Nat) (v : VersionConfig),
        ((planSteps plans)[i]? = some (Step.activateVersion v) ∨
          (planSteps plans)[i]? = some (Step.deactivateVersion v)) → 0 < i) ∧
    ∀ (j : Nat) (w : VersionConfig),
      (planSteps plans)[j]? = some (Step.deactivateVersion w) →
      ∃ i v, i < j ∧
        (planSteps plans)[i]? = some (Step.activateVersion v) ∧
        v.service_id = w.service_id := by
  have hval := generate_plan_locality h
  refine ⟨by simp [planSteps], ?_, ?_⟩
  · intro i v hi
    cases i with
    | zero => rcases hi with hi | hi <;> simp [planSteps] at hi
    | succ k => exact Nat.succ_pos k
  · intro j w hj
    cases j with
    | zero => simp [planSteps] at hj
    | succ k =>
      simp only [planSteps, List.getElem?_cons_succ] at hj
      obtain ⟨i, v, hik, hi, hsid⟩ :=
        plansSteps_deactivate_after_activate plans hval k w hj
      refine ⟨i + 1, v, Nat.succ_lt_succ hik, ?_, hsid⟩
      simpa [planSteps, List.getElem?_cons_succ] using hi

/-- C4 witness: the ordering properties on the steps of the concrete
four-service rollback from v1 to v2. -/
theorem c4_step_ordering_demo :
    (planSteps exPlans)[0]? = some Step.checkSchemaCompatibility ∧
    (∀ (i : Nat) (v : VersionConfig),
        ((planSteps exPlans)[i]? = some (Step.activateVersion v) ∨
          (planSteps exPlans)[i]? = some (Step.deactivateVersion v)) → 0 < i) ∧
    ∀ (j : Nat) (w : VersionConfig),
      (planSteps exPlans)[j]? = some (Step.deactivateVersion w) →
      ∃ i v, i < j ∧
        (planSteps exPlans)[i]? = some (Step.activateVersion v) ∧
        v.service_id = w.service_id :=
  c4_step_ordering exTargets exServing exPlans rfl

/-- C7 counterexample: the serving version default/v9 is required for the plan
(it is serving and would have to be deactivated) and has no resolvable
configuration on the platform, yet the pipeline succeeds instead of failing
with ServiceStateError: the generated plans simply omit default/v9. -/
theorem c7_counterexample :
    c7Serving.contains ⟨"default", "v9"⟩ = true ∧
    c7Platform.all (fun c => !(c.key == ⟨"default", "v9"⟩)) = true ∧
    rollback_run c7Catalog "t" c7Serving c7Platform = .ok c7Plans ∧
    c7Plans.all (fun p => p.serving_versions.all
      (fun c => !(c.key == ⟨"default", "v9"⟩))) = true :=
  ⟨rfl, rfl, rfl, rfl⟩

/-- C7 amended: only the target side escalates, at service granularity; when
the resolvable target configurations do not cover the managed service set
exactly, plan generation fails with ServiceStateError naming the uncovered
managed services, while a serving version whose configuration the platform
omitted is silently dropped: the run can succeed and no emitted plan then
references that version. -/
theorem c7_missing_config (targets serving : List VersionKey)
    (all_configs : List VersionConfig) :
    (keysEqSet (serviceKeys (_ensure_versions_available targets all_configs))
        SERVICES = false →
      _generate_plan (_ensure_versions_available targets all_configs)
          (_ensure_versions_available serving all_configs) =
        .error (.serviceStateError (missingServices
          (serviceKeys (_ensure_versions_available targets all_configs))))) ∧
    ∀ (plans : List _RollbackPlan) (k : VersionKey),
      _generate_plan (_ensure_versions_available targets all_configs)
          (_ensure_versions_available serving all_configs) = .ok plans →
      k ∈ serving → (∀ c ∈ all_configs, c.key ≠ k) →
      ∀ p ∈ plans, ∀ c ∈ p.serving_versions, c.key ≠ k := by
  refine ⟨generate_plan_guard_false _ _, ?_⟩
  intro plans k h _hk hmiss p hp c hc
  obtain ⟨-, hpl⟩ := generate_plan_ok_plans h
  subst hpl
  obtain ⟨sid, -, hps⟩ := List.mem_filterMap.mp hp
  obtain ⟨-, hsv, -⟩ := planForService_eq_some hps
  rw [hsv] at hc
  have hc1 : c ∈ _ensure_versions_available serving all_configs :=
    (List.mem_filter.mp hc).1
  have hc2 : c ∈ all_configs := (List.mem_filter.mp hc1).1
  exact hmiss c hc2

/-- C7 witness: in the concrete missing-configuration scenario, no emitted
plan references the unresolvable serving version default/v9. -/
theorem c7_missing_config_demo :
    ∀ p ∈ c7Plans, ∀ c ∈ p.serving_versions,
      c.key ≠ (⟨"default", "v9"⟩ : VersionKey) :=
  (c7_missing_config c7TargetKeys c7Serving c7Platform).2 c7Plans
    ⟨"default", "v9"⟩ rfl (by decide) (by decide)

/-- C8: set semantics of catalog parsing. On the record lines t1,svcA,v1 /
t1,svcA,v1 / t1,svcA,v2, filtering by tag t1 collapses the duplicate line:
the gcs parser returns the identity set with svcA/v1 appearing once, and the
version_utils parser groups the same lines into the single entry svcA with
the version set consisting of v1 and v2. -/
theorem c8_catalog_set_semantics :
    get_versions_by_release ["t1,svcA,v1", "t1,svcA,v1", "t1,svcA,v2"] "t1" =
      .ok [⟨"svcA", "v1"⟩, ⟨"svcA", "v2"⟩] ∧
    _parse_version_map ["t1,svcA,v1", "t1,svcA,v1", "t1,svcA,v2"] "t1" =
      .ok [⟨"svcA", ["v1", "v2"], some "t1"⟩] :=
  ⟨rfl, rfl⟩

/-- A record line unpacks exactly when it has three comma-separated fields. -/
theorem parseRecordLine_isSome_iff (line : String) :
    (parseRecordLine line).isSome = true ↔
      (split_fields line).length = 3 := by
  unfold parseRecordLine
  rcases split_fields line with _ | ⟨a, _ | ⟨b, _ | ⟨c, _ | ⟨d, e⟩⟩⟩⟩ <;> simp

/-- Mapping over an Except preserves the existence of a success value. -/
theorem except_map_ok_iff {ε α β : Type} {e : Except ε α} {f : α → β} :
    (∃ b, e.map f = .ok b) ↔ ∃ a, e = .ok a := by
  cases e <;> simp [Except.map]

/-- The record-line loop succeeds exactly when every line has three fields. -/
theorem parseVersionLines_ok_iff (tag : String) (lines : List String) :
    (∃ ks, parseVersionLines tag lines = .ok ks) ↔
      ∀ line ∈ lines, (split_fields line).length = 3 := by
  induction lines with
  | nil => simp [parseVersionLines]
  | cons line rest ih =>
    constructor
    · rintro ⟨ks, hks⟩ l hl
      cases hpl : parseRecordLine line with
      | none =>
        simp only [parseVersionLines, hpl] at hks
        simp at hks
      | some triple =>
        obtain ⟨t3, s3, v3⟩ := triple
        simp only [parseVersionLines, hpl] at hks
        rcases List.mem_cons.mp hl with rfl | hl
        · have hsome : (parseRecordLine l).isSome = true := by
            rw [hpl]
            rfl
          exact (parseRecordLine_isSome_iff l).mp hsome
        · have hrest : ∃ ks', parseVersionLines tag rest = .ok ks' := by
            cases hres : parseVersionLines tag rest with
            | error e =>
              rw [hres] at hks
              simp [Except.map] at hks
            | ok ks' => exact ⟨ks', rfl⟩
          exact (ih.mp hrest) l hl
    · intro hlen
      have hline : (split_fields line).length = 3 :=
        hlen line (List.mem_cons_self _ _)
      have hsome : (parseRecordLine line).isSome = true :=
        (parseRecordLine_isSome_iff line).mpr hline
      cases hplc : parseRecordLine line with
      | none =>
        rw [hplc] at hsome
        cases hsome
      | some triple =>
        obtain ⟨t3, s3, v3⟩ := triple
        obtain ⟨ks', hks'⟩ :=
          ih.mpr (fun l hl => hlen l (List.mem_cons_of_mem _ hl))
        refine ⟨if tag == t3 then ⟨s3, v3⟩ :: ks' else ks', ?_⟩
        simp only [parseVersionLines, hplc, hks', Except.map]

/-- C9: parsing the release-to-version store succeeds exactly when every
record line splits into three comma-separated fields; any line with a
different field count makes the whole parse fail (with the ValueError of the
failed tuple unpacking). -/
theorem c9_malformed_record (lines : List String) (tag : String) :
    (∃ ks, get_versions_by_release lines tag = .ok ks) ↔
      ∀ line ∈ lines, (split_fields line).length = 3 := by
  unfold get_versions_by_release
  rw [except_map_ok_iff]
  exact parseVersionLines_ok_iff tag lines

/-- C9 witness: a two-field line makes parsing fail; three-field lines make
it succeed. -/
theorem c9_malformed_record_demo :
    (¬∃ ks, get_versions_by_release ["t,backend", "t,default,v1"] "t" = .ok ks) ∧
    ∃ ks, get_versions_by_release ["t,default,v1"] "t" = .ok ks := by
  constructor
  · intro hok
    have h3 := (c9_malformed_record ["t,backend", "t,default,v1"] "t").mp hok
      "t,backend" (by decide)
    revert h3
    decide
  · exact (c9_malformed_record ["t,default,v1"] "t").mpr (by decide)

/-- C10: get_schema_tag returns the single line exactly when the file body is
one line, and raises the assertion error for any other line count. -/
theorem c10_schema_tag (file_content : List String) :
    (∀ line, file_content = [line] →
      get_schema_tag file_content = .ok line) ∧
    (file_content.length ≠ 1 →
      get_schema_tag file_content = .error .assertionError) := by
  constructor
  · rintro line rfl
    rfl
  · intro hne
    rcases file_content with _ | ⟨a, _ | ⟨b, rest⟩⟩
    · rfl
    · simp at hne
    · rfl

/-- C10 witness: a one-line body returns its line; an empty body raises. -/
theorem c10_schema_tag_demo :
    get_schema_tag ["v1"] = .ok "v1" ∧
    get_schema_tag [] = .error .assertionError :=
  ⟨(c10_schema_tag ["v1"]).1 "v1" rfl, (c10_schema_tag []).2 (by decide)⟩
